import Mathlib

/-!
Verification of the AI-Assistant CLI core: conversation store, cost ledger,
provider retry loop, and session controller, shallowly embedded from the
Python sources (`src/utils/conversation.py`, `src/utils/cost_tracker.py`,
`src/llm/openai_provider.py`, `src/llm/anthropic_provider.py`, `src/main.py`).
-/

namespace AIAssistantCLI

/-! ## Conversation store (`src/utils/conversation.py`) -/

/-- Message roles: `user`, `assistant`, `system`. -/
inductive Role
  | user
  | assistant
  | system
deriving DecidableEq

/-- The string form of a role, as used in the wire-format dictionaries. -/
def Role.toStr : Role → String
  | .user => "user"
  | .assistant => "assistant"
  | .system => "system"

/-- A single message in the conversation (`Message` dataclass). -/
structure Message where
  role : Role
  content : String
deriving DecidableEq

/-- `Message.to_dict`: the `{role, content}` wire pair. -/
def Message.to_dict (m : Message) : String × String := (m.role.toStr, m.content)

/-- The `Conversation` dataclass: an ordered message list plus the optional
system prompt kept from construction. -/
structure Conversation where
  messages : List Message
  system_prompt : Option String
deriving DecidableEq

/-- Construction of a `Conversation` with default (empty) messages:
`__post_init__` appends the system prompt as first message when the prompt is
truthy (a non-empty string, Python truthiness). -/
def mkConversation : Option String → Conversation
  | none => { messages := [], system_prompt := none }
  | some s =>
      if s = "" then { messages := [], system_prompt := some s }
      else { messages := [Message.mk Role.system s], system_prompt := some s }

/-- `Conversation.add_user_message`: append a user message. -/
def Conversation.add_user_message (c : Conversation) (content : String) : Conversation :=
  { c with messages := c.messages ++ [Message.mk Role.user content] }

/-- `Conversation.add_assistant_message`: append an assistant message. -/
def Conversation.add_assistant_message (c : Conversation) (content : String) : Conversation :=
  { c with messages := c.messages ++ [Message.mk Role.assistant content] }

/-- `Conversation.add_system_message`: append a system message. -/
def Conversation.add_system_message (c : Conversation) (content : String) : Conversation :=
  { c with messages := c.messages ++ [Message.mk Role.system content] }

/-- `Conversation.get_messages`: the wire-format list of role/content pairs. -/
def Conversation.get_messages (c : Conversation) : List (String × String) :=
  c.messages.map Message.to_dict

/-- `Conversation.clear`: reset to just the system-prompt message when the
stored prompt is truthy (non-empty), otherwise to the empty list. -/
def Conversation.clear (c : Conversation) : Conversation :=
  match c.system_prompt with
  | some s =>
      if s = "" then { c with messages := [] }
      else { c with messages := [Message.mk Role.system s] }
  | none => { c with messages := [] }

/-! ## Cost ledger (`src/utils/cost_tracker.py`) -/

/-- A single `CostEntry` recorded for one completed API call. -/
structure CostEntry where
  provider : String
  model : String
  input_tokens : Nat
  output_tokens : Nat
  cost : Rat
deriving DecidableEq

/-- The `CostTracker` dataclass: recorded entries plus the two thresholds. -/
structure CostTracker where
  entries : List CostEntry
  warning_threshold : Rat
  limit_threshold : Rat
deriving DecidableEq

/-- The static `PRICING` table: USD per **million** tokens, `(input, output)`.
`0.150` etc. are written as exact rationals. -/
def PRICING : String → Option (Rat × Rat)
  | "gpt-4o-mini" => some (150 / 1000, 600 / 1000)
  | "claude-3-5-haiku-20241022" => some (80 / 100, 4)
  | _ => none

/-- The `if model not in PRICING: model = "gpt-4o-mini"` fallback followed by
the table lookup. -/
def lookupPricing (model : String) : Rat × Rat :=
  match PRICING model with
  | some p => p
  | none => (PRICING "gpt-4o-mini").getD (0, 0)

/-- `CostTracker.calculate_cost`: tokens are priced per million, input and
output separately, with the unknown-model fallback applied first. -/
def calculate_cost (model : String) (input_tokens output_tokens : Nat) : Rat :=
  ((input_tokens : Rat) / 1000000) * (lookupPricing model).1
    + ((output_tokens : Rat) / 1000000) * (lookupPricing model).2

/-- `CostTracker.add_entry`: compute the cost, append a `CostEntry`, and
return the cost (here: the updated tracker paired with the cost). -/
def CostTracker.add_entry (t : CostTracker) (provider model : String)
    (input_tokens output_tokens : Nat) : CostTracker × Rat :=
  let cost := calculate_cost model input_tokens output_tokens
  ({ t with entries := t.entries ++
      [{ provider := provider, model := model, input_tokens := input_tokens,
         output_tokens := output_tokens, cost := cost }] }, cost)

/-- `CostTracker.get_total_cost`: sum of all entry costs. -/
def CostTracker.get_total_cost (t : CostTracker) : Rat :=
  (t.entries.map CostEntry.cost).sum

/-- `CostTracker.should_warn`: total cost has reached the warning threshold. -/
def CostTracker.should_warn (t : CostTracker) : Bool :=
  decide (t.warning_threshold ≤ t.get_total_cost)

/-- `CostTracker.should_stop`: total cost has reached the hard limit. -/
def CostTracker.should_stop (t : CostTracker) : Bool :=
  decide (t.limit_threshold ≤ t.get_total_cost)

/-! ## Provider clients (`src/llm/base.py`, `src/llm/openai_provider.py`,
`src/llm/anthropic_provider.py`) -/

/-- `LLMResponse` from `base.py`. -/
structure LLMResponse where
  content : String
  input_tokens : Nat
  output_tokens : Nat
  model : String
  finish_reason : Option String
deriving DecidableEq

/-- The uniform provider error kinds raised by the clients (`base.py`):
`APIConnectionError`, `RateLimitError`, `AuthenticationError`,
`InvalidRequestError`, each carrying their message. -/
inductive ProviderError
  | APIConnectionError (msg : String)
  | RateLimitError (msg : String)
  | AuthenticationError (msg : String)
  | InvalidRequestError (msg : String)
deriving DecidableEq

/-- Backend-side exceptions seen inside an attempt of the retry loop: the four
classified SDK error kinds, plus any other unexpected exception. -/
inductive BackendExc
  | connection (msg : String)
  | rateLimit (msg : String)
  | auth (msg : String)
  | badRequest (msg : String)
  | other (msg : String)
deriving DecidableEq

/-- What one attempt of the backend call does: succeed with a response, or
raise an exception. -/
inductive ChatOutcome
  | success (r : LLMResponse)
  | failure (e : BackendExc)
deriving DecidableEq

/-- An exception escaping a client's `chat`: either one of the uniform
provider errors the client raises itself, or a raw backend exception
propagated unwrapped. The code only ever produces the former. -/
inductive Exc
  | provider (e : ProviderError)
  | backend (e : BackendExc)
deriving DecidableEq

instance {ε α : Type} [DecidableEq ε] [DecidableEq α] : DecidableEq (Except ε α)
  | .ok a, .ok b =>
      if h : a = b then .isTrue (by rw [h]) else .isFalse (by intro hc; cases hc; exact h rfl)
  | .error a, .error b =>
      if h : a = b then .isTrue (by rw [h]) else .isFalse (by intro hc; cases hc; exact h rfl)
  | .ok _, .error _ => .isFalse (by intro hc; cases hc)
  | .error _, .ok _ => .isFalse (by intro hc; cases hc)

/-- Observable trace of one `chat` call: how many backend attempts were made,
the backoff waits performed (in seconds, in order), and the final outcome. -/
structure ChatTrace where
  attempts : Nat
  waits : List Nat
  result : Except Exc LLMResponse
deriving DecidableEq

/-- The retry loop body shared verbatim by both providers
(`for attempt in range(self.max_retries)` in `openai_provider.py` lines
92-142 and `anthropic_provider.py` lines 94-148). `remaining` counts the loop
iterations still to run; the loop is entered with `remaining = max_retries`
and `attempt = 0`. Transient errors (connection, rate limit) and unexpected
errors wait `2 ^ attempt` seconds and retry unless this is the final attempt,
in which case they are raised wrapped; authentication and bad-request errors
are raised wrapped immediately. -/
def chatAux (backend : Nat → ChatOutcome) (max_retries : Nat) :
    Nat → Nat → ChatTrace
  | 0, _ =>
      { attempts := 0, waits := [],
        result := .error (.provider (.APIConnectionError "Max retries exceeded")) }
  | remaining + 1, attempt =>
      match backend attempt with
      | .success r => { attempts := 1, waits := [], result := .ok r }
      | .failure (.connection msg) =>
          if attempt = max_retries - 1 then
            { attempts := 1, waits := [],
              result := .error (.provider
                (.APIConnectionError ("Connection failed: " ++ msg))) }
          else
            let rest := chatAux backend max_retries remaining (attempt + 1)
            { attempts := 1 + rest.attempts, waits := 2 ^ attempt :: rest.waits,
              result := rest.result }
      | .failure (.rateLimit msg) =>
          if attempt = max_retries - 1 then
            { attempts := 1, waits := [],
              result := .error (.provider
                (.RateLimitError ("Rate limit exceeded: " ++ msg))) }
          else
            let rest := chatAux backend max_retries remaining (attempt + 1)
            { attempts := 1 + rest.attempts, waits := 2 ^ attempt :: rest.waits,
              result := rest.result }
      | .failure (.auth msg) =>
          { attempts := 1, waits := [],
            result := .error (.provider
              (.AuthenticationError ("Authentication failed: " ++ msg))) }
      | .failure (.badRequest msg) =>
          { attempts := 1, waits := [],
            result := .error (.provider
              (.InvalidRequestError ("Invalid request: " ++ msg))) }
      | .failure (.other msg) =>
          if attempt = max_retries - 1 then
            { attempts := 1, waits := [],
              result := .error (.provider
                (.APIConnectionError ("Unexpected error: " ++ msg))) }
          else
            let rest := chatAux backend max_retries remaining (attempt + 1)
            { attempts := 1 + rest.attempts, waits := 2 ^ attempt :: rest.waits,
              result := rest.result }

/-- A provider's `chat` retry wrapper, abstracted over the per-attempt backend
behaviour: run the loop from attempt 0 with `max_retries` iterations left. -/
def providerChat (backend : Nat → ChatOutcome) (max_retries : Nat) : ChatTrace :=
  chatAux backend max_retries max_retries 0

/-- The wrapped provider error each raise site of the retry loop produces for
a given backend exception. -/
def wrapExc : BackendExc → ProviderError
  | .connection msg => .APIConnectionError ("Connection failed: " ++ msg)
  | .rateLimit msg => .RateLimitError ("Rate limit exceeded: " ++ msg)
  | .auth msg => .AuthenticationError ("Authentication failed: " ++ msg)
  | .badRequest msg => .InvalidRequestError ("Invalid request: " ++ msg)
  | .other msg => .APIConnectionError ("Unexpected error: " ++ msg)

/-- Exceptions the loop retries with backoff (everything except
authentication and bad-request errors). -/
def retryableExc : BackendExc → Bool
  | .connection _ => true
  | .rateLimit _ => true
  | .other _ => true
  | .auth _ => false
  | .badRequest _ => false

/-- The two classified transient kinds (`ConnectionFailure`, `RateLimited`). -/
def transientExc : BackendExc → Bool
  | .connection _ => true
  | .rateLimit _ => true
  | _ => false

/-- The request payload the Anthropic client hands to
`client.messages.create`: the optional out-of-band `system` field and the
conversation body. -/
structure AnthropicRequest where
  system : Option String
  messages : List (String × String)
deriving DecidableEq

/-- One iteration of the message-shaping loop of `AnthropicProvider.chat`
(lines 87-91): a system-role message overwrites `system_message` and is
dropped from `api_messages`, every other message is appended. -/
def extractStep (acc : Option String × List (String × String))
    (msg : String × String) : Option String × List (String × String) :=
  if msg.1 = "system" then (some msg.2, acc.2) else (acc.1, acc.2 ++ [msg])

/-- The message-shaping loop of `AnthropicProvider.chat` (lines 84-91),
started from `system_message = None` and `api_messages = []`. -/
def anthropicExtract (messages : List (String × String)) :
    Option String × List (String × String) :=
  messages.foldl extractStep (none, [])

/-- The request actually built (lines 97-105): `kwargs["system"]` is set only
when the extracted `system_message` is truthy (a non-empty string). -/
def buildAnthropicRequest (messages : List (String × String)) : AnthropicRequest :=
  let extracted := anthropicExtract messages
  { system :=
      match extracted.1 with
      | some s => if s = "" then none else some s
      | none => none,
    messages := extracted.2 }

/-- The content of the **last** system-role message of a wire list, if any.
Specification-side description used to characterise `anthropicExtract`. -/
def lastSystemContent : List (String × String) → Option String
  | [] => none
  | p :: rest =>
      match lastSystemContent rest with
      | some c => some c
      | none => if p.1 = "system" then some p.2 else none

/-! ## Session controller (`src/main.py`) -/

/-- The observable state of a constructed provider client held by the
controller: which provider, its model, and whether `close()` has been called
on it. -/
structure ClientState where
  name : String
  model : String
  closed : Bool
deriving DecidableEq

/-- The `AIAssistant` session controller state. -/
structure AIAssistant where
  conversation : Conversation
  cost_tracker : CostTracker
  current_provider_name : String
  provider : Option ClientState
deriving DecidableEq

/-- The `await self.provider.close()` step of `initialize_provider` (errors
swallowed): mark the held client, if any, as closed. -/
def closeClient : Option ClientState → Option ClientState
  | some c => some { c with closed := true }
  | none => none

/-- `AIAssistant.initialize_provider` (lines 55-88): close the existing
client, then construct the new one, or raise `ValueError` for an unknown
provider name — after the close already happened. The second component is the
raised error message, if any. -/
def AIAssistant.initialize_provider (a : AIAssistant) (provider_name : String) :
    AIAssistant × Option String :=
  let a1 := { a with provider := closeClient a.provider }
  if provider_name = "openai" then
    ({ a1 with
        provider := some { name := "openai", model := "gpt-4o-mini", closed := false },
        current_provider_name := "openai" }, none)
  else if provider_name = "anthropic" then
    ({ a1 with
        provider := some { name := "anthropic",
                           model := "claude-3-5-haiku-20241022", closed := false },
        current_provider_name := "anthropic" }, none)
  else
    (a1, some ("Unknown provider: " ++ provider_name))

/-- The exceptions `AIAssistant.send_message` can raise: the two `RuntimeError`
sites (no provider; cost limit reached, carrying the current total) and a
propagated provider failure. -/
inductive SendError
  | notInitialized (msg : String)
  | costLimitExceeded (total : Rat)
  | providerFailure (e : Exc)
deriving DecidableEq

/-- `AIAssistant.send_message` (lines 90-147), with the awaited
`provider.chat` call abstracted as a function from the wire history to a
result: check the provider, check the cost limit, append the user message,
call the provider, and on success append the assistant message and record the
cost. -/
def AIAssistant.send_message (a : AIAssistant)
    (chat : List (String × String) → Except Exc LLMResponse)
    (user_message : String) : AIAssistant × Except SendError String :=
  match a.provider with
  | none => (a, .error (.notInitialized "Provider not initialized"))
  | some client =>
    if a.cost_tracker.should_stop = true then
      (a, .error (.costLimitExceeded a.cost_tracker.get_total_cost))
    else
      let conv := a.conversation.add_user_message user_message
      match chat conv.get_messages with
      | .error e => ({ a with conversation := conv }, .error (.providerFailure e))
      | .ok response =>
        let conv2 := conv.add_assistant_message response.content
        let tracked := a.cost_tracker.add_entry client.name response.model
            response.input_tokens response.output_tokens
        ({ a with conversation := conv2, cost_tracker := tracked.1 },
         .ok response.content)

/-! ### Concrete states used to exercise the theorems -/

/-- A controller with an active openai client and an exhausted cost budget
(limit threshold 0, so `should_stop` holds with no entries). -/
def limitHitAssistant : AIAssistant :=
  { conversation := mkConversation none,
    cost_tracker := { entries := [], warning_threshold := 1 / 10, limit_threshold := 0 },
    current_provider_name := "openai",
    provider := some { name := "openai", model := "gpt-4o-mini", closed := false } }

/-- A controller with an active openai client and budget to spare. -/
def freshAssistant : AIAssistant :=
  { conversation := mkConversation none,
    cost_tracker := { entries := [], warning_threshold := 1 / 10, limit_threshold := 1 },
    current_provider_name := "openai",
    provider := some { name := "openai", model := "gpt-4o-mini", closed := false } }

/-- A sample successful provider response. -/
def okResponse : LLMResponse :=
  { content := "hi there", input_tokens := 7, output_tokens := 3,
    model := "gpt-4o-mini", finish_reason := some "stop" }

/-! ## Helper lemmas -/

/-- Characterisation of the fold in `anthropicExtract`, for any starting
accumulator: the first component ends as the last system content (falling back
to the start value), the second accumulates the non-system messages in
order. -/
theorem foldl_extractStep (messages : List (String × String)) :
    ∀ (s : Option String) (acc : List (String × String)),
      messages.foldl extractStep (s, acc)
        = (match lastSystemContent messages with
           | some c => some c
           | none => s,
           acc ++ messages.filter (fun p => decide (¬ p.1 = "system"))) := by
  induction messages with
  | nil => intro s acc; simp [lastSystemContent]
  | cons p rest ih =>
    intro s acc
    rw [List.foldl_cons]
    by_cases hp : p.1 = "system"
    · rw [show extractStep (s, acc) p = (some p.2, acc) from by simp [extractStep, hp]]
      rw [ih (some p.2) acc]
      cases h : lastSystemContent rest <;>
        simp [lastSystemContent, hp, h, List.filter_cons]
    · rw [show extractStep (s, acc) p = (s, acc ++ [p]) from by simp [extractStep, hp]]
      rw [ih s (acc ++ [p])]
      cases h : lastSystemContent rest <;>
        simp [lastSystemContent, hp, h, List.filter_cons]

/-- `anthropicExtract` returns the last system content and the non-system
messages in their original order. -/
theorem anthropicExtract_spec (messages : List (String × String)) :
    anthropicExtract messages
      = (lastSystemContent messages,
         messages.filter (fun p => decide (¬ p.1 = "system"))) := by
  rw [anthropicExtract, foldl_extractStep]
  cases h : lastSystemContent messages <;> simp

/-- A list containing a system-role message has a last system content. -/
theorem lastSystemContent_isSome (messages : List (String × String))
    (h : ∃ p ∈ messages, p.1 = "system") :
    (lastSystemContent messages).isSome = true := by
  induction messages with
  | nil => simp at h
  | cons p rest ih =>
    obtain ⟨q, hq, hqs⟩ := h
    rcases List.mem_cons.mp hq with h1 | h2
    · subst h1
      cases hrest : lastSystemContent rest <;>
        simp [lastSystemContent, hrest, hqs]
    · have hsome := ih ⟨q, h2, hqs⟩
      cases hrest : lastSystemContent rest with
      | none => rw [hrest] at hsome; simp at hsome
      | some c => simp [lastSystemContent, hrest]

/-- Behaviour of the retry loop when every remaining attempt raises a
retryable exception: all `remaining` iterations run, the loop waits
`2 ^ attempt` seconds after each non-final attempt, and the final attempt's
exception is surfaced wrapped. -/
theorem chatAux_all_retryable (backend : Nat → ChatOutcome) (N : Nat) :
    ∀ remaining attempt, attempt + remaining = N → 0 < remaining →
      (∀ i, attempt ≤ i → i < N → ∃ e, backend i = .failure e ∧ retryableExc e = true) →
      ∃ e, backend (N - 1) = .failure e ∧
        chatAux backend N remaining attempt
          = { attempts := remaining,
              waits := (List.range' attempt (remaining - 1)).map (fun a => 2 ^ a),
              result := .error (.provider (wrapExc e)) } := by
  intro remaining
  induction remaining with
  | zero => intro attempt _ h0; exact absurd h0 (lt_irrefl 0)
  | succ r ih =>
    intro attempt hsum hpos hall
    obtain ⟨e, he, hre⟩ := hall attempt le_rfl (by omega)
    cases r with
    | zero =>
      have hfin : attempt = N - 1 := by omega
      subst hfin
      refine ⟨e, he, ?_⟩
      cases e with
      | connection msg => simp [chatAux, he, wrapExc, List.range']
      | rateLimit msg => simp [chatAux, he, wrapExc, List.range']
      | auth msg => simp [retryableExc] at hre
      | badRequest msg => simp [retryableExc] at hre
      | other msg => simp [chatAux, he, wrapExc, List.range']
    | succ s =>
      have hne : ¬ attempt = N - 1 := by omega
      obtain ⟨e2, he2, heq⟩ := ih (attempt + 1) (by omega) (by omega)
        (fun i h1 h2 => hall i (by omega) h2)
      refine ⟨e2, he2, ?_⟩
      cases e with
      | connection msg =>
          have step : chatAux backend N (s + 1 + 1) attempt
              = { attempts := 1 + (chatAux backend N (s + 1) (attempt + 1)).attempts,
                  waits := 2 ^ attempt :: (chatAux backend N (s + 1) (attempt + 1)).waits,
                  result := (chatAux backend N (s + 1) (attempt + 1)).result } := by
            simp [chatAux, he, hne]
          rw [step, heq]
          simp [List.range']
          omega
      | rateLimit msg =>
          have step : chatAux backend N (s + 1 + 1) attempt
              = { attempts := 1 + (chatAux backend N (s + 1) (attempt + 1)).attempts,
                  waits := 2 ^ attempt :: (chatAux backend N (s + 1) (attempt + 1)).waits,
                  result := (chatAux backend N (s + 1) (attempt + 1)).result } := by
            simp [chatAux, he, hne]
          rw [step, heq]
          simp [List.range']
          omega
      | auth msg => simp [retryableExc] at hre
      | badRequest msg => simp [retryableExc] at hre
      | other msg =>
          have step : chatAux backend N (s + 1 + 1) attempt
              = { attempts := 1 + (chatAux backend N (s + 1) (attempt + 1)).attempts,
                  waits := 2 ^ attempt :: (chatAux backend N (s + 1) (attempt + 1)).waits,
                  result := (chatAux backend N (s + 1) (attempt + 1)).result } := by
            simp [chatAux, he, hne]
          rw [step, heq]
          simp [List.range']
          omega

/-! ## Claim theorems -/

/-- C7: appending a user then an assistant message extends the wire-format
list with exactly the corresponding role/content pairs in order (so from an
empty store the result is exactly those two pairs), and `clear()` leaves
exactly the system-prompt message when a (truthy) system prompt was
configured, and zero messages otherwise. -/
theorem conversation_roundtrip_and_clear :
    (∀ (conv : Conversation) (u asst : String),
      ((conv.add_user_message u).add_assistant_message asst).get_messages
        = conv.get_messages ++ [("user", u), ("assistant", asst)])
  ∧ (∀ u asst : String,
      (((mkConversation none).add_user_message u).add_assistant_message asst).get_messages
        = [("user", u), ("assistant", asst)])
  ∧ (∀ (conv : Conversation) (s : String), conv.system_prompt = some s → s ≠ "" →
      (Conversation.clear conv).messages = [Message.mk Role.system s])
  ∧ (∀ conv : Conversation, conv.system_prompt = none →
      (Conversation.clear conv).messages = []) := by
  refine ⟨?_, ?_, ?_, ?_⟩
  · intro conv u asst
    simp [Conversation.add_user_message, Conversation.add_assistant_message,
      Conversation.get_messages, Message.to_dict, Role.toStr]
  · intro u asst
    simp [mkConversation, Conversation.add_user_message, Conversation.add_assistant_message,
      Conversation.get_messages, Message.to_dict, Role.toStr]
  · intro conv s hs hne
    simp [Conversation.clear, hs, hne]
  · intro conv h
    simp [Conversation.clear, h]

/-- C7 witness: the round trip and both clear behaviours on concrete stores. -/
theorem conversation_roundtrip_and_clear_witness :
    ((((mkConversation (some "sys")).add_user_message "hi").add_assistant_message
        "yo").get_messages = [("system", "sys"), ("user", "hi"), ("assistant", "yo")])
  ∧ (Conversation.clear (mkConversation (some "sys"))).messages
      = [Message.mk Role.system "sys"]
  ∧ (Conversation.clear (mkConversation none)).messages = [] := by
  refine ⟨?_, ?_, ?_⟩
  · rw [conversation_roundtrip_and_clear.1 (mkConversation (some "sys")) "hi" "yo"]
    decide
  · exact conversation_roundtrip_and_clear.2.2.1 (mkConversation (some "sys")) "sys"
      (by decide) (by decide)
  · exact conversation_roundtrip_and_clear.2.2.2 (mkConversation none) rfl

/-- C8: `should_warn` holds exactly when the sum of entry costs has reached
the warning threshold, and `should_stop` exactly when it has reached the
limit threshold. -/
theorem should_warn_stop_iff_thresholds (t : CostTracker) :
    (t.should_warn = true ↔ t.warning_threshold ≤ (t.entries.map CostEntry.cost).sum)
  ∧ (t.should_stop = true ↔ t.limit_threshold ≤ (t.entries.map CostEntry.cost).sum) := by
  constructor <;>
    simp [CostTracker.should_warn, CostTracker.should_stop, CostTracker.get_total_cost]

/-- C10: a conversation constructed with the empty string as system prompt
starts with zero messages, exactly like one constructed with no prompt, and
`clear()` on any store whose stored prompt is the empty string resets to zero
messages. -/
theorem empty_system_prompt_behaves_as_none :
    (mkConversation (some "")).messages = []
  ∧ (mkConversation (some "")).messages = (mkConversation none).messages
  ∧ (∀ conv : Conversation, conv.system_prompt = some "" →
      (Conversation.clear conv).messages = []) := by
  refine ⟨by decide, by decide, ?_⟩
  intro conv h
  simp [Conversation.clear, h]

/-- C10 witness: clearing the store constructed with an empty-string prompt
leaves zero messages. -/
theorem empty_system_prompt_behaves_as_none_witness :
    (Conversation.clear (mkConversation (some ""))).messages = [] :=
  empty_system_prompt_behaves_as_none.2.2 (mkConversation (some "")) (by decide)

/-- C4: `calculate_cost` is per-million-token pricing for each table entry,
the two sample values from the spec hold within `1e-10`, and any unknown
model is priced like the default `gpt-4o-mini`. -/
theorem calculate_cost_formula_and_values :
    (∀ i o : Nat, calculate_cost "gpt-4o-mini" i o
        = ((i : Rat) / 1000000) * (150 / 1000) + ((o : Rat) / 1000000) * (600 / 1000))
  ∧ (∀ i o : Nat, calculate_cost "claude-3-5-haiku-20241022" i o
        = ((i : Rat) / 1000000) * (80 / 100) + ((o : Rat) / 1000000) * 4)
  ∧ |calculate_cost "gpt-4o-mini" 1000 500 - 45 / 100000| ≤ 1 / 10 ^ 10
  ∧ |calculate_cost "claude-3-5-haiku-20241022" 1000 500 - 28 / 10000| ≤ 1 / 10 ^ 10
  ∧ (∀ model : String, PRICING model = none →
      ∀ i o : Nat, calculate_cost model i o = calculate_cost "gpt-4o-mini" i o) := by
  have h1 : lookupPricing "gpt-4o-mini" = (150 / 1000, 600 / 1000) := rfl
  have h2 : lookupPricing "claude-3-5-haiku-20241022" = (80 / 100, 4) := rfl
  have e1 : calculate_cost "gpt-4o-mini" 1000 500
      = ((1000 : Rat) / 1000000) * (150 / 1000) + ((500 : Rat) / 1000000) * (600 / 1000) := by
    unfold calculate_cost
    rw [h1]
    norm_num
  have e2 : calculate_cost "claude-3-5-haiku-20241022" 1000 500
      = ((1000 : Rat) / 1000000) * (80 / 100) + ((500 : Rat) / 1000000) * 4 := by
    unfold calculate_cost
    rw [h2]
    norm_num
  refine ⟨?_, ?_, ?_, ?_, ?_⟩
  · intro i o
    unfold calculate_cost
    rw [h1]
  · intro i o
    unfold calculate_cost
    rw [h2]
  · rw [e1, abs_le]
    constructor <;> norm_num
  · rw [e2, abs_le]
    constructor <;> norm_num
  · intro model hm i o
    have hl : lookupPricing model = lookupPricing "gpt-4o-mini" := by
      unfold lookupPricing
      rw [hm]
      rfl
    unfold calculate_cost
    rw [hl]

/-- C4 witness: a model absent from the price table is costed exactly like
the default model. -/
theorem calculate_cost_formula_witness :
    PRICING "gemini-ultra" = none
  ∧ calculate_cost "gemini-ultra" 1000 500 = calculate_cost "gpt-4o-mini" 1000 500 :=
  ⟨rfl, calculate_cost_formula_and_values.2.2.2.2 "gemini-ultra" rfl 1000 500⟩

/-- C2: with `max_retries = N`, a chat whose every attempt raises a transient
failure (connection or rate limit) makes exactly `N` attempts, waits
`2 ^ attempt` seconds before attempt `attempt + 1` for attempts `0 .. N-2`,
and surfaces the `N`-th failure (wrapped at its raise site); a chat whose
first attempt raises an authentication or invalid-request failure makes
exactly 1 attempt and raises it immediately with no retry. -/
theorem chat_retry_transient_and_auth (backend : Nat → ChatOutcome) (N : Nat)
    (hN : 1 ≤ N) :
    ((∀ i, i < N → ∃ e, backend i = ChatOutcome.failure e ∧ transientExc e = true) →
      (providerChat backend N).attempts = N
      ∧ (providerChat backend N).waits = (List.range (N - 1)).map (fun a => 2 ^ a)
      ∧ ∃ e, backend (N - 1) = ChatOutcome.failure e ∧ transientExc e = true
          ∧ (providerChat backend N).result = .error (.provider (wrapExc e)))
  ∧ (∀ msg, backend 0 = ChatOutcome.failure (.auth msg) →
      (providerChat backend N).attempts = 1
      ∧ (providerChat backend N).waits = []
      ∧ (providerChat backend N).result
          = .error (.provider (.AuthenticationError ("Authentication failed: " ++ msg))))
  ∧ (∀ msg, backend 0 = ChatOutcome.failure (.badRequest msg) →
      (providerChat backend N).attempts = 1
      ∧ (providerChat backend N).waits = []
      ∧ (providerChat backend N).result
          = .error (.provider (.InvalidRequestError ("Invalid request: " ++ msg)))) := by
  refine ⟨?_, ?_, ?_⟩
  · intro hall
    obtain ⟨e, he, heq⟩ := chatAux_all_retryable backend N N 0 (by omega) (by omega)
      (fun i _ h2 => by
        obtain ⟨e, he, ht⟩ := hall i h2
        exact ⟨e, he, by cases e <;> simp_all [transientExc, retryableExc]⟩)
    have ht : transientExc e = true := by
      obtain ⟨e2, he2, ht2⟩ := hall (N - 1) (by omega)
      rw [he] at he2
      injection he2 with h3
      rwa [h3]
    have hu : providerChat backend N = chatAux backend N N 0 := rfl
    refine ⟨?_, ?_, e, he, ht, ?_⟩
    · rw [hu, heq]
    · rw [hu, heq, List.range_eq_range']
    · rw [hu, heq]
  · intro msg h0
    obtain ⟨m, hm⟩ : ∃ m, N = m + 1 := ⟨N - 1, by omega⟩
    subst hm
    refine ⟨?_, ?_, ?_⟩ <;> simp [providerChat, chatAux, h0]
  · intro msg h0
    obtain ⟨m, hm⟩ : ∃ m, N = m + 1 := ⟨N - 1, by omega⟩
    subst hm
    refine ⟨?_, ?_, ?_⟩ <;> simp [providerChat, chatAux, h0]

/-- C2 witness: always-failing connection at `max_retries = 3` gives exactly 3
attempts, waits of 1 then 2 seconds, and the wrapped third failure; an
authentication failure on the first attempt gives exactly 1 attempt. -/
theorem chat_retry_transient_and_auth_witness :
    (providerChat (fun _ => ChatOutcome.failure (.connection "down")) 3).attempts = 3
  ∧ (providerChat (fun _ => ChatOutcome.failure (.connection "down")) 3).waits = [1, 2]
  ∧ (providerChat (fun _ => ChatOutcome.failure (.connection "down")) 3).result
      = .error (.provider (.APIConnectionError "Connection failed: down"))
  ∧ (providerChat (fun _ => ChatOutcome.failure (.auth "bad key")) 3).attempts = 1
  ∧ (providerChat (fun _ => ChatOutcome.failure (.badRequest "malformed")) 3).attempts
      = 1 := by
  have h := (chat_retry_transient_and_auth
      (fun _ => ChatOutcome.failure (.connection "down")) 3 (by omega)).1
    (fun i _ => ⟨BackendExc.connection "down", rfl, rfl⟩)
  have ha := (chat_retry_transient_and_auth
      (fun _ => ChatOutcome.failure (.auth "bad key")) 3 (by omega)).2.1 "bad key" rfl
  have hb := (chat_retry_transient_and_auth
      (fun _ => ChatOutcome.failure (.badRequest "malformed")) 3 (by omega)).2.2
    "malformed" rfl
  refine ⟨h.1, ?_, ?_, ha.1, hb.1⟩
  · rw [h.2.1]
    decide
  · obtain ⟨e, he, _, hr⟩ := h.2.2
    have h3 : e = BackendExc.connection "down" := by injection he.symm
    subst h3
    exact hr.trans (by decide)

/-- C5 (amended): an unclassified failure is treated as transient — on
non-final attempts the loop waits `2 ^ attempt` and retries — and when it
occurs on the final attempt it is not retried further but raised wrapped as a
connection failure whose message preserves the original error's message. -/
theorem unexpected_error_wrapped_retry (backend : Nat → ChatOutcome) (N : Nat)
    (msgs : Nat → String) (hN : 1 ≤ N)
    (hb : ∀ i, i < N → backend i = ChatOutcome.failure (.other (msgs i))) :
    (providerChat backend N).attempts = N
    ∧ (providerChat backend N).waits = (List.range (N - 1)).map (fun a => 2 ^ a)
    ∧ (providerChat backend N).result
        = .error (.provider (.APIConnectionError ("Unexpected error: " ++ msgs (N - 1)))) := by
  obtain ⟨e, he, heq⟩ := chatAux_all_retryable backend N N 0 (by omega) (by omega)
    (fun i _ h2 => ⟨.other (msgs i), hb i h2, rfl⟩)
  have he2 := hb (N - 1) (by omega)
  rw [he] at he2
  injection he2 with h3
  subst h3
  have hu : providerChat backend N = chatAux backend N N 0 := rfl
  exact ⟨by rw [hu, heq], by rw [hu, heq, List.range_eq_range'],
    by rw [hu, heq]; rfl⟩

/-- C5 witness: an always-unclassified failure at `max_retries = 2` makes 2
attempts, waits 1 second once, and surfaces the wrapped final message. -/
theorem unexpected_error_wrapped_retry_witness :
    (providerChat (fun _ => ChatOutcome.failure (.other "boom")) 2).attempts = 2
  ∧ (providerChat (fun _ => ChatOutcome.failure (.other "boom")) 2).waits = [1]
  ∧ (providerChat (fun _ => ChatOutcome.failure (.other "boom")) 2).result
      = .error (.provider (.APIConnectionError "Unexpected error: boom")) := by
  have h := unexpected_error_wrapped_retry
    (fun _ => ChatOutcome.failure (.other "boom")) 2 (fun _ => "boom")
    (by omega) (fun i _ => rfl)
  refine ⟨h.1, ?_, ?_⟩
  · rw [h.2.1]
    decide
  · exact h.2.2.trans (by decide)

/-- C5 counterexample: with `max_retries = 1` an unclassified failure occurs
on the final attempt, yet it is raised wrapped as `ConnectionFailure`
("Unexpected error: ..."), not unwrapped as the original exception, refuting
the claim's final-attempt clause. -/
theorem unexpected_error_unwrapped_counterexample :
    (providerChat (fun _ => ChatOutcome.failure (.other "boom")) 1).result
      = .error (.provider (.APIConnectionError "Unexpected error: boom"))
  ∧ (providerChat (fun _ => ChatOutcome.failure (.other "boom")) 1).result
      ≠ .error (.backend (.other "boom")) := by
  decide

/-- C3 counterexample: with two system messages, the Anthropic client's
request carries the content of the *second* (last) system message, and drops
*both* system messages from the body — not the first message out-of-band with
the rest in order, as claimed. -/
theorem anthropic_system_extraction_counterexample :
    buildAnthropicRequest [("system", "a"), ("system", "b"), ("user", "u")]
      = { system := some "b", messages := [("user", "u")] }
  ∧ (buildAnthropicRequest [("system", "a"), ("system", "b"), ("user", "u")]).system
      ≠ some "a"
  ∧ (buildAnthropicRequest [("system", "a"), ("system", "b"), ("user", "u")]).messages
      ≠ [("system", "b"), ("user", "u")] := by
  decide

/-- C3 (amended): for a message list containing at least one system message,
the Anthropic client extracts the content of the *last* system message,
passes it out-of-band as the `system` field when it is non-empty (omitting
the field when it is empty), and passes all *non-system* messages, in their
original order, as the conversation body. -/
theorem anthropic_system_extraction_last (messages : List (String × String))
    (h : ∃ p ∈ messages, p.1 = "system") :
    ∃ c, lastSystemContent messages = some c
      ∧ buildAnthropicRequest messages
          = { system := if c = "" then none else some c,
              messages := messages.filter (fun p => decide (¬ p.1 = "system")) } := by
  have hsome := lastSystemContent_isSome messages h
  obtain ⟨c, hc⟩ := Option.isSome_iff_exists.mp hsome
  refine ⟨c, hc, ?_⟩
  rw [buildAnthropicRequest, anthropicExtract_spec, hc]

/-- C3 witness: a list with one system message followed by a user message. -/
theorem anthropic_system_extraction_last_witness :
    ∃ c, lastSystemContent [("system", "be brief"), ("user", "hello")] = some c
      ∧ buildAnthropicRequest [("system", "be brief"), ("user", "hello")]
          = { system := if c = "" then none else some c,
              messages := [("system", "be brief"), ("user", "hello")].filter
                (fun p => decide (¬ p.1 = "system")) } :=
  anthropic_system_extraction_last [("system", "be brief"), ("user", "hello")]
    ⟨("system", "be brief"), by simp, rfl⟩

/-- C1: when the cost ledger already says stop, `send_message` on an active
controller fails with the cost-limit error carrying the current total, and
the whole controller state — in particular the conversation — is unchanged:
the check runs strictly before any append. -/
theorem send_rejected_at_cost_limit (a : AIAssistant)
    (chat : List (String × String) → Except Exc LLMResponse)
    (user_text : String) (c : ClientState)
    (hp : a.provider = some c)
    (hstop : a.cost_tracker.should_stop = true) :
    a.send_message chat user_text
      = (a, .error (.costLimitExceeded a.cost_tracker.get_total_cost))
  ∧ (a.send_message chat user_text).1.conversation = a.conversation := by
  constructor
  · simp [AIAssistant.send_message, hp, hstop]
  · simp [AIAssistant.send_message, hp, hstop]

/-- C1 witness: a controller with limit threshold 0 rejects the send and
keeps its (empty) conversation. -/
theorem send_rejected_at_cost_limit_witness :
    limitHitAssistant.cost_tracker.should_stop = true
  ∧ limitHitAssistant.send_message
      (fun _ => .error (.provider (.APIConnectionError "x"))) "hello"
      = (limitHitAssistant, .error (.costLimitExceeded 0)) := by
  have h := send_rejected_at_cost_limit limitHitAssistant
    (fun _ => .error (.provider (.APIConnectionError "x"))) "hello"
    { name := "openai", model := "gpt-4o-mini", closed := false }
    rfl (by norm_num [limitHitAssistant, CostTracker.should_stop,
      CostTracker.get_total_cost])
  refine ⟨?_, ?_⟩
  · norm_num [limitHitAssistant, CostTracker.should_stop, CostTracker.get_total_cost]
  · rw [h.1]
    norm_num [limitHitAssistant, CostTracker.get_total_cost]

/-- C6: on an active controller under the cost limit, the user message is
appended before the provider call: a failing call propagates the failure and
leaves the user message as the last history entry with no assistant message,
while a successful call appends the assistant message after it. -/
theorem send_appends_user_then_assistant (a : AIAssistant)
    (chat : List (String × String) → Except Exc LLMResponse)
    (user_text : String) (c : ClientState)
    (hp : a.provider = some c)
    (hstop : a.cost_tracker.should_stop = false) :
    (∀ e, chat ((a.conversation.add_user_message user_text).get_messages) = .error e →
      a.send_message chat user_text
        = ({ a with conversation := a.conversation.add_user_message user_text },
           .error (.providerFailure e))
      ∧ (a.send_message chat user_text).1.conversation.messages
          = a.conversation.messages ++ [Message.mk Role.user user_text])
  ∧ (∀ r, chat ((a.conversation.add_user_message user_text).get_messages) = .ok r →
      (a.send_message chat user_text).1.conversation.messages
        = a.conversation.messages
            ++ [Message.mk Role.user user_text, Message.mk Role.assistant r.content]
      ∧ (a.send_message chat user_text).2 = .ok r.content) := by
  constructor
  · intro e hc
    constructor
    · simp only [AIAssistant.send_message, hp, hstop, hc]
      rfl
    · simp only [AIAssistant.send_message, hp, hstop, hc]
      simp [Conversation.add_user_message]
  · intro r hc
    constructor
    · simp only [AIAssistant.send_message, hp, hstop, hc]
      simp [Conversation.add_user_message, Conversation.add_assistant_message]
    · simp only [AIAssistant.send_message, hp, hstop, hc]
      rfl

/-- C6 witness: on a fresh controller, a failing provider call leaves exactly
the user message in history, and a successful one appends the assistant
reply. -/
theorem send_appends_user_then_assistant_witness :
    ((freshAssistant.send_message
        (fun _ => .error (.provider (.RateLimitError "slow"))) "hello").1).conversation.messages
      = [Message.mk Role.user "hello"]
  ∧ (freshAssistant.send_message
        (fun _ => .error (.provider (.RateLimitError "slow"))) "hello").2
      = .error (.providerFailure (.provider (.RateLimitError "slow")))
  ∧ ((freshAssistant.send_message (fun _ => .ok okResponse) "hello").1).conversation.messages
      = [Message.mk Role.user "hello", Message.mk Role.assistant "hi there"]
  ∧ (freshAssistant.send_message (fun _ => .ok okResponse) "hello").2
      = .ok "hi there" := by
  have hstop : freshAssistant.cost_tracker.should_stop = false := by
    norm_num [freshAssistant, CostTracker.should_stop, CostTracker.get_total_cost]
  have he := (send_appends_user_then_assistant freshAssistant
      (fun _ => .error (.provider (.RateLimitError "slow"))) "hello"
      { name := "openai", model := "gpt-4o-mini", closed := false }
      rfl hstop).1 (.provider (.RateLimitError "slow")) rfl
  have ho := (send_appends_user_then_assistant freshAssistant
      (fun _ => .ok okResponse) "hello"
      { name := "openai", model := "gpt-4o-mini", closed := false }
      rfl hstop).2 okResponse rfl
  refine ⟨?_, ?_, ?_, ?_⟩
  · rw [he.2]
    decide
  · rw [he.1]
  · rw [ho.1]
    decide
  · exact ho.2

/-- C9: switching an active controller to an unknown provider name raises the
configuration error without constructing a new client, but only after the
current client was closed — the rejected switch leaves the controller holding
the same client, now marked closed. -/
theorem switch_unknown_provider_closes_then_rejects (a : AIAssistant)
    (c : ClientState) (provider_name : String)
    (hp : a.provider = some c)
    (h1 : provider_name ≠ "openai") (h2 : provider_name ≠ "anthropic") :
    a.initialize_provider provider_name
      = ({ a with provider := some { c with closed := true } },
         some ("Unknown provider: " ++ provider_name))
  ∧ (a.initialize_provider provider_name).1.provider
      = some { c with closed := true } := by
  constructor
  · simp [AIAssistant.initialize_provider, closeClient, hp, h1, h2]
  · simp [AIAssistant.initialize_provider, closeClient, hp, h1, h2]

/-- C9 witness: switching a fresh controller to "gemini" is rejected with the
unknown-provider error while its openai client ends up closed. -/
theorem switch_unknown_provider_closes_then_rejects_witness :
    freshAssistant.initialize_provider "gemini"
      = ({ freshAssistant with
            provider := some { name := "openai", model := "gpt-4o-mini", closed := true } },
         some "Unknown provider: gemini")
  ∧ (freshAssistant.initialize_provider "gemini").1.provider
      = some { name := "openai", model := "gpt-4o-mini", closed := true } := by
  have h := switch_unknown_provider_closes_then_rejects freshAssistant
    { name := "openai", model := "gpt-4o-mini", closed := false }
    "gemini" rfl (by decide) (by decide)
  refine ⟨?_, h.2⟩
  rw [h.1]
  rfl

end AIAssistantCLI
